import Mathlib

/-!
Verification of the proxy-aware dialer, TLS setup and grant operations of the
terraform-provider-scylladb repository (package scylladb, session.go and the
grant query layer), as a shallow embedding in Lean.

Conventions of the embedding:
* bytes are `Nat`; byte slices are `List Nat`; Go `string` is Lean `String`;
* time is measured in seconds, so Go `30*time.Second` is the number `30`;
* a Go `context.Context` is reduced to its optional absolute deadline;
* external library calls (net dial, request write, `http.ReadResponse`) are
  modelled by an explicit `ProxyBehavior` record holding their outcomes for
  one dial attempt, and `crypto/x509` / `crypto/tls` parsing by an `X509Lib`
  record of oracle functions, so that only the control flow of the provider
  itself is translated;
* a Go function that can return `(nil, err)` yields an `Option`-valued result
  together with its error; a nil-pointer dereference (a Go panic) is the
  `none` result of an `Option`-valued model of the whole call.
-/

/-- A Go context reduced to its optional absolute deadline (seconds). -/
structure Context where
  deadline : Option Nat
  deriving DecidableEq, Repr

/-- The parts of a parsed net/url.URL that the dial path reads. -/
structure URL where
  scheme : String
  host : String
  deriving DecidableEq, Repr

/-- Embeds type ProxyDialer of session.go: the stored proxy URL. The Go field
is a pointer that is nil when url.Parse failed, hence the Option. -/
structure ProxyDialer where
  ProxyURL : Option URL
  deriving DecidableEq, Repr

/-- The connection returned by DialContext: either the raw proxy socket, or
(embedding type BufferedConn of session.go) the socket wrapped together with
the bytes the bufio.Reader still holds past the parsed response header. A
connection is modelled by the sequence of bytes it will deliver to readers. -/
inductive NetConn where
  | raw (stream : List Nat)
  | buffered (buf : List Nat) (stream : List Nat)
  deriving DecidableEq, Repr

/-- One Read call on the connection, asking for at most n bytes. For the
wrapped connection this embeds BufferedConn.Read, which delegates to
bufio.Reader.Read: while the buffer is non-empty a read is served from the
buffer alone; once it is drained reads fall through to the raw socket. -/
def NetConn.read : NetConn → Nat → List Nat × NetConn
  | NetConn.raw s, n => (s.take n, NetConn.raw (s.drop n))
  | NetConn.buffered buf s, n =>
    if buf.isEmpty then (s.take n, NetConn.raw (s.drop n))
    else (buf.take n, NetConn.buffered (buf.drop n) s)

/-- All bytes the connection can still deliver, buffered bytes first. -/
def NetConn.avail : NetConn → List Nat
  | NetConn.raw s => s
  | NetConn.buffered buf s => buf ++ s

/-- The bytes produced by a sequence of Read calls of the given sizes. -/
def NetConn.readMany : NetConn → List Nat → List Nat
  | _, [] => []
  | c, n :: ns => (c.read n).1 ++ (c.read n).2.readMany ns

theorem NetConn.read_append_avail (c : NetConn) (n : Nat) :
    (c.read n).1 ++ (c.read n).2.avail = c.avail := by
  cases c with
  | raw s => simp [NetConn.read, NetConn.avail]
  | buffered buf s =>
    by_cases hb : buf.isEmpty
    · simp [NetConn.read, NetConn.avail, hb, List.isEmpty_iff.mp hb]
    · simp [NetConn.read, NetConn.avail, hb, ← List.append_assoc]

theorem NetConn.readMany_isPrefix (c : NetConn) (ns : List Nat) :
    c.readMany ns <+: c.avail := by
  induction ns generalizing c with
  | nil => exact ⟨c.avail, rfl⟩
  | cons n ns ih =>
    rcases ih (c.read n).2 with ⟨t, ht⟩
    refine ⟨t, ?_⟩
    calc NetConn.readMany c (n :: ns) ++ t
        = (c.read n).1 ++ ((c.read n).2.readMany ns ++ t) := by
          simp [NetConn.readMany, List.append_assoc]
      _ = (c.read n).1 ++ (c.read n).2.avail := by rw [ht]
      _ = c.avail := NetConn.read_append_avail c n

/-- The parts of the http.Response that DialContext reads, plus the bytes the
proxy pipelined after the header, which http.ReadResponse leaves unread in
the bufio.Reader. -/
structure HttpResponse where
  StatusCode : Nat
  Status : String
  pipelined : List Nat
  deriving DecidableEq, Repr

/-- Outcome of the external network operations during one dial attempt:
whether the TCP connect to the proxy succeeds, whether the CONNECT request
write succeeds, what http.ReadResponse returns (none models a parse error),
and the bytes the raw socket will deliver after the buffered ones. -/
structure ProxyBehavior where
  dialOk : Bool
  dialErr : String
  writeOk : Bool
  writeErr : String
  readResponse : Option HttpResponse
  readErr : String
  stream : List Nat
  deriving DecidableEq, Repr

/-- Observable outcome of ProxyDialer.DialContext: the returned connection or
error, whether proxyConn.Close() ran before returning, and the deadline of
the context actually used for the proxy TCP connect. -/
structure DialResult where
  conn : Option NetConn
  err : Option String
  proxyClosed : Bool
  usedDeadline : Option Nat
  deriving DecidableEq, Repr

/-- Embeds the deadline installation at the top of DialContext: absent a
caller deadline, context.WithTimeout(ctx, 30*time.Second) is applied. -/
def effectiveContext (ctx : Context) (now : Nat) : Context :=
  if (ctx.deadline).isSome then ctx else { deadline := some (now + 30) }

/-- Embeds ProxyDialer.DialContext of session.go, step by step: install the
default timeout when no deadline is set, dial the proxy (reading
p.ProxyURL.Host: a nil ProxyURL makes the whole call panic, modelled as the
none result), write the CONNECT request, read the HTTP response through a
bufio.Reader, require status 200, and wrap the connection when the reader
still buffers bytes. -/
def ProxyDialer.DialContext (p : ProxyDialer) (ctx : Context) (now : Nat)
    (beh : ProxyBehavior) : Option DialResult :=
  let ctxEff := effectiveContext ctx now
  match p.ProxyURL with
  | none => none
  | some _ =>
    if beh.dialOk = false then
      some { conn := none, err := some beh.dialErr, proxyClosed := false,
             usedDeadline := ctxEff.deadline }
    else if beh.writeOk = false then
      some { conn := none, err := some beh.writeErr, proxyClosed := true,
             usedDeadline := ctxEff.deadline }
    else
      match beh.readResponse with
      | none =>
        some { conn := none,
               err := some (("failed to read proxy response: ") ++ beh.readErr),
               proxyClosed := true, usedDeadline := ctxEff.deadline }
      | some resp =>
        if resp.StatusCode ≠ 200 then
          some { conn := none,
                 err := some (("proxy refused connection: ") ++ resp.Status),
                 proxyClosed := true, usedDeadline := ctxEff.deadline }
        else if 0 < resp.pipelined.length then
          some { conn := some (NetConn.buffered resp.pipelined beh.stream),
                 err := none, proxyClosed := false,
                 usedDeadline := ctxEff.deadline }
        else
          some { conn := some (NetConn.raw beh.stream), err := none,
                 proxyClosed := false, usedDeadline := ctxEff.deadline }

/-- C1: for every CONNECT response whose HTTP status is not 200, DialContext
returns no connection, closes the proxy socket, and returns an error whose
message contains the literal status text of the response. -/
theorem dialTunnel_non200 (p : ProxyDialer) (u : URL) (ctx : Context)
    (now : Nat) (beh : ProxyBehavior) (resp : HttpResponse)
    (hu : p.ProxyURL = some u) (hd : beh.dialOk = true)
    (hw : beh.writeOk = true) (hr : beh.readResponse = some resp)
    (hs : resp.StatusCode ≠ 200) :
    ∃ r, p.DialContext ctx now beh = some r ∧ r.conn = none ∧
      r.proxyClosed = true ∧
      r.err = some (("proxy refused connection: ") ++ resp.Status) ∧
      ∃ e, r.err = some e ∧ resp.Status.data <:+: e.data := by
  have h : p.DialContext ctx now beh = some
      { conn := none,
        err := some (("proxy refused connection: ") ++ resp.Status),
        proxyClosed := true,
        usedDeadline := (effectiveContext ctx now).deadline } := by
    simp [ProxyDialer.DialContext, hu, hd, hw, hr, hs]
  exact ⟨_, h, rfl, rfl, rfl, _, rfl,
    ⟨("proxy refused connection: ").data, [], by simp [String.data_append]⟩⟩

theorem dialTunnel_non200_witness :
    ∃ r, ProxyDialer.DialContext
        { ProxyURL := some { scheme := "http", host := "proxy.local:8888" } }
        { deadline := none } 0
        { dialOk := true, dialErr := "", writeOk := true, writeErr := "",
          readResponse := some
            { StatusCode := 403, Status := "403 Forbidden", pipelined := [] },
          readErr := "", stream := [] } = some r ∧
      r.conn = none ∧ r.proxyClosed = true ∧
      r.err = some (("proxy refused connection: ") ++ ("403 Forbidden")) ∧
      ∃ e, r.err = some e ∧ ("403 Forbidden").data <:+: e.data :=
  dialTunnel_non200
    { ProxyURL := some { scheme := "http", host := "proxy.local:8888" } }
    { scheme := "http", host := "proxy.local:8888" }
    { deadline := none } 0
    { dialOk := true, dialErr := "", writeOk := true, writeErr := "",
      readResponse := some
        { StatusCode := 403, Status := "403 Forbidden", pipelined := [] },
      readErr := "", stream := [] }
    { StatusCode := 403, Status := "403 Forbidden", pipelined := [] }
    rfl rfl rfl rfl (by decide)

/-- C2: on a successful tunnel dial, when the bufio.Reader still holds unread
bytes past the response header the returned connection is the wrapped
connection whose reads serve exactly those bytes, in order, before any byte
of the raw socket; when nothing is buffered the raw socket is returned
unwrapped. -/
theorem dialTunnel_pipelined (p : ProxyDialer) (u : URL) (ctx : Context)
    (now : Nat) (beh : ProxyBehavior) (resp : HttpResponse)
    (hu : p.ProxyURL = some u) (hd : beh.dialOk = true)
    (hw : beh.writeOk = true) (hr : beh.readResponse = some resp)
    (hs : resp.StatusCode = 200) :
    ∃ r, p.DialContext ctx now beh = some r ∧ r.err = none ∧
      (resp.pipelined ≠ [] →
        r.conn = some (NetConn.buffered resp.pipelined beh.stream) ∧
        (∀ n, ((NetConn.buffered resp.pipelined beh.stream).read n).1 =
          resp.pipelined.take n) ∧
        (∀ ns, NetConn.readMany (NetConn.buffered resp.pipelined beh.stream) ns
          <+: resp.pipelined ++ beh.stream) ∧
        NetConn.readMany (NetConn.buffered resp.pipelined beh.stream)
          [resp.pipelined.length, beh.stream.length] =
          resp.pipelined ++ beh.stream) ∧
      (resp.pipelined = [] → r.conn = some (NetConn.raw beh.stream)) := by
  by_cases hne : resp.pipelined = []
  · have h : p.DialContext ctx now beh = some
        { conn := some (NetConn.raw beh.stream), err := none,
          proxyClosed := false,
          usedDeadline := (effectiveContext ctx now).deadline } := by
      simp [ProxyDialer.DialContext, hu, hd, hw, hr, hs, hne]
    exact ⟨_, h, rfl, fun hc => absurd hne hc, fun _ => rfl⟩
  · have hlen : 0 < resp.pipelined.length := List.length_pos.mpr hne
    have h : p.DialContext ctx now beh = some
        { conn := some (NetConn.buffered resp.pipelined beh.stream),
          err := none, proxyClosed := false,
          usedDeadline := (effectiveContext ctx now).deadline } := by
      simp [ProxyDialer.DialContext, hu, hd, hw, hr, hs, hlen]
    refine ⟨_, h, rfl, fun _ => ⟨rfl, ?_, ?_, ?_⟩, fun he => absurd he hne⟩
    · intro n
      simp [NetConn.read, List.isEmpty_iff, hne]
    · intro ns
      simpa [NetConn.avail] using
        NetConn.readMany_isPrefix (NetConn.buffered resp.pipelined beh.stream) ns
    · simp [NetConn.readMany, NetConn.read, List.isEmpty_iff, hne]

theorem dialTunnel_pipelined_witness :
    ∃ r, ProxyDialer.DialContext
        { ProxyURL := some { scheme := "http", host := "proxy.local:8888" } }
        { deadline := none } 0
        { dialOk := true, dialErr := "", writeOk := true, writeErr := "",
          readResponse := some
            { StatusCode := 200, Status := "200 Connection Established",
              pipelined := [5, 6] },
          readErr := "", stream := [7, 8, 9] } = some r ∧ r.err = none ∧
      ([5, 6] ≠ ([] : List Nat) →
        r.conn = some (NetConn.buffered [5, 6] [7, 8, 9]) ∧
        (∀ n, ((NetConn.buffered [5, 6] [7, 8, 9]).read n).1 =
          ([5, 6] : List Nat).take n) ∧
        (∀ ns, NetConn.readMany (NetConn.buffered [5, 6] [7, 8, 9]) ns
          <+: [5, 6] ++ [7, 8, 9]) ∧
        NetConn.readMany (NetConn.buffered [5, 6] [7, 8, 9])
          [([5, 6] : List Nat).length, ([7, 8, 9] : List Nat).length] =
          [5, 6] ++ [7, 8, 9]) ∧
      (([5, 6] : List Nat) = [] → r.conn = some (NetConn.raw [7, 8, 9])) :=
  dialTunnel_pipelined
    { ProxyURL := some { scheme := "http", host := "proxy.local:8888" } }
    { scheme := "http", host := "proxy.local:8888" }
    { deadline := none } 0
    { dialOk := true, dialErr := "", writeOk := true, writeErr := "",
      readResponse := some
        { StatusCode := 200, Status := "200 Connection Established",
          pipelined := [5, 6] },
      readErr := "", stream := [7, 8, 9] }
    { StatusCode := 200, Status := "200 Connection Established",
      pipelined := [5, 6] }
    rfl rfl rfl rfl rfl

theorem dialContext_returns (p : ProxyDialer) (u : URL) (ctx : Context)
    (now : Nat) (beh : ProxyBehavior) (hu : p.ProxyURL = some u) :
    ∃ r, p.DialContext ctx now beh = some r ∧
      r.usedDeadline = (effectiveContext ctx now).deadline := by
  by_cases h1 : beh.dialOk = false
  · refine ⟨{ conn := none, err := some beh.dialErr, proxyClosed := false,
              usedDeadline := (effectiveContext ctx now).deadline }, ?_, rfl⟩
    simp [ProxyDialer.DialContext, hu, h1]
  by_cases h2 : beh.writeOk = false
  · refine ⟨{ conn := none, err := some beh.writeErr, proxyClosed := true,
              usedDeadline := (effectiveContext ctx now).deadline }, ?_, rfl⟩
    simp [ProxyDialer.DialContext, hu, h1, h2]
  cases hr : beh.readResponse with
  | none =>
    refine ⟨{ conn := none,
              err := some (("failed to read proxy response: ") ++ beh.readErr),
              proxyClosed := true,
              usedDeadline := (effectiveContext ctx now).deadline }, ?_, rfl⟩
    simp [ProxyDialer.DialContext, hu, h1, h2, hr]
  | some resp =>
    by_cases h3 : resp.StatusCode = 200
    · by_cases h4 : 0 < resp.pipelined.length
      · refine ⟨{ conn := some (NetConn.buffered resp.pipelined beh.stream),
                  err := none, proxyClosed := false,
                  usedDeadline := (effectiveContext ctx now).deadline },
            ?_, rfl⟩
        simp [ProxyDialer.DialContext, hu, h1, h2, hr, h3, h4]
      · refine ⟨{ conn := some (NetConn.raw beh.stream), err := none,
                  proxyClosed := false,
                  usedDeadline := (effectiveContext ctx now).deadline },
            ?_, rfl⟩
        simp [ProxyDialer.DialContext, hu, h1, h2, hr, h3, h4]
    · refine ⟨{ conn := none,
                err := some (("proxy refused connection: ") ++ resp.Status),
                proxyClosed := true,
                usedDeadline := (effectiveContext ctx now).deadline },
          ?_, rfl⟩
      simp [ProxyDialer.DialContext, hu, h1, h2, hr, h3]

/-- C8: when the caller context carries no deadline, DialContext installs a
default 30-second timeout before the proxy TCP connect; a context that
already carries a deadline is used unchanged. -/
theorem dialContext_default_timeout (p : ProxyDialer) (u : URL)
    (ctx : Context) (now : Nat) (beh : ProxyBehavior)
    (hu : p.ProxyURL = some u) :
    ∃ r, p.DialContext ctx now beh = some r ∧
      (ctx.deadline = none → r.usedDeadline = some (now + 30)) ∧
      (∀ d, ctx.deadline = some d → r.usedDeadline = some d) := by
  obtain ⟨r, h, hdl⟩ := dialContext_returns p u ctx now beh hu
  refine ⟨r, h, ?_, ?_⟩
  · intro hn
    rw [hdl]
    simp [effectiveContext, hn]
  · intro d hd2
    rw [hdl]
    simp [effectiveContext, hd2]

theorem dialContext_default_timeout_witness :
    (∃ r, ProxyDialer.DialContext
        { ProxyURL := some { scheme := "http", host := "proxy.local:8888" } }
        { deadline := none } 100
        { dialOk := false, dialErr := "refused", writeOk := true,
          writeErr := "", readResponse := none, readErr := "",
          stream := [] } = some r ∧ r.usedDeadline = some (100 + 30)) ∧
    (∃ r, ProxyDialer.DialContext
        { ProxyURL := some { scheme := "http", host := "proxy.local:8888" } }
        { deadline := some 7 } 100
        { dialOk := false, dialErr := "refused", writeOk := true,
          writeErr := "", readResponse := none, readErr := "",
          stream := [] } = some r ∧ r.usedDeadline = some 7) := by
  constructor
  · obtain ⟨r, h, h0, _⟩ := dialContext_default_timeout
      { ProxyURL := some { scheme := "http", host := "proxy.local:8888" } }
      { scheme := "http", host := "proxy.local:8888" }
      { deadline := none } 100
      { dialOk := false, dialErr := "refused", writeOk := true,
        writeErr := "", readResponse := none, readErr := "", stream := [] }
      rfl
    exact ⟨r, h, h0 rfl⟩
  · obtain ⟨r, h, _, h7⟩ := dialContext_default_timeout
      { ProxyURL := some { scheme := "http", host := "proxy.local:8888" } }
      { scheme := "http", host := "proxy.local:8888" }
      { deadline := some 7 } 100
      { dialOk := false, dialErr := "refused", writeOk := true,
        writeErr := "", readResponse := none, readErr := "", stream := [] }
      rfl
    exact ⟨r, h, h7 7 rfl⟩

/-- Boolean prefix test on character lists, first argument the prefix. -/
def listHasPrefix : List Char → List Char → Bool
  | [], _ => true
  | _ :: _, [] => false
  | p :: ps, c :: cs => p == c && listHasPrefix ps cs

/-- Embeds strings.HasPrefix(s, p). -/
def strHasPrefix (s p : String) : Bool := listHasPrefix p.data s.data

theorem listHasPrefix_append (p s : List Char) :
    listHasPrefix p (p ++ s) = true := by
  induction p with
  | nil => rfl
  | cons c cs ih => simp [listHasPrefix, ih]

theorem strHasPrefix_append (p s : String) :
    strHasPrefix (p ++ s) p = true := by
  unfold strHasPrefix
  rw [String.data_append]
  exact listHasPrefix_append p.data s.data

/-- Character-level rejection used by the url.Parse model: net/url fails on
any ASCII control character in the URL. -/
def hasCtl (s : String) : Bool :=
  s.data.any (fun c => c.toNat < 32 || c.toNat == 127)

/-- Host-level rejection used by the url.Parse model: net/url fails on a
space in the host component. -/
def hostOk (h : String) : Bool :=
  h.data.all (fun c => !(c == ' '))

/-- Model of the Go standard library function net/url.Parse, restricted to
the strings NewClusterConfig feeds it: an http:// or https:// scheme
(NewClusterConfig prepends one when missing) followed by a host. Parsing
yields nil plus an error — here none — when the string holds an ASCII
control character or the host holds a space; otherwise the URL carries the
scheme and the remainder as host. Userinfo, paths, percent escapes and port
validation are outside the model. -/
def urlParse (s : String) : Option URL :=
  if hasCtl s then none
  else if strHasPrefix s ("http://") then
    (if hostOk (s.drop 7) then some { scheme := "http", host := s.drop 7 }
     else none)
  else if strHasPrefix s ("https://") then
    (if hostOk (s.drop 8) then some { scheme := "https", host := s.drop 8 }
     else none)
  else none

/-- Abstract result of tls.X509KeyPair: the parsed client key pair. -/
structure TLSCertificate where
  certData : List Nat
  keyData : List Nat
  deriving DecidableEq, Repr

/-- The fields of tls.Config that Cluster.SetTLS writes. The certificate
pool is represented by the PEM bytes appended to it, and the
GetClientCertificate callback by the certificate it deterministically
returns. -/
structure TLSConfig where
  RootCAsFromPEM : List Nat
  InsecureSkipVerify : Bool
  Certificates : List TLSCertificate
  GetClientCertificate : Option TLSCertificate
  deriving DecidableEq, Repr

/-- Embeds gocql.SslOptions as written by Cluster.SetTLS. -/
structure SslOptions where
  Config : TLSConfig
  EnableHostVerification : Bool
  deriving DecidableEq, Repr

/-- Embeds gocql.PasswordAuthenticator. -/
structure PasswordAuthenticator where
  Username : String
  Password : String
  deriving DecidableEq, Repr

/-- The fields of gocql.ClusterConfig that this provider reads or writes. -/
structure ClusterConfig where
  hosts : List String
  Dialer : Option ProxyDialer
  DisableInitialHostLookup : Bool
  NumConns : Nat
  SslOpts : Option SslOptions
  Authenticator : Option PasswordAuthenticator
  deriving DecidableEq, Repr

/-- gocql.NewCluster: a fresh config over the given hosts with the library
defaults for the fields modelled here (gocql defaults NumConns to 2). -/
def gocqlNewCluster (hosts : List String) : ClusterConfig :=
  { hosts := hosts, Dialer := none, DisableInitialHostLookup := false,
    NumConns := 2, SslOpts := none, Authenticator := none }

/-- Embeds type Cluster of session.go (without the open Session handle). -/
structure Cluster where
  Cluster : ClusterConfig
  SystemAuthKeyspaceName : String
  deriving DecidableEq, Repr

/-- Embeds cmp.Or on strings: the first non-zero (non-empty) argument. -/
def cmpOr (a b : String) : String := if a ≠ "" then a else b

/-- The scheme-defaulting step of NewClusterConfig: when the proxy string
has neither an http:// nor an https:// prefix, http:// is prepended. -/
def normalizeProxy (s : String) : String :=
  if !(strHasPrefix s ("http://")) && !(strHasPrefix s ("https://")) then
    ("http://") ++ s
  else s

/-- Embeds NewClusterConfig of session.go, with os.Getenv as an explicit
environment. The source discards the url.Parse error, so the dialer stores
the possibly-nil parse result directly. -/
def NewClusterConfig (env : String → String) (hosts : List String) : Cluster :=
  let cluster := gocqlNewCluster hosts
  let proxyStr := cmpOr (env ("HTTPS_PROXY")) (env ("HTTP_PROXY"))
  let cluster :=
    if proxyStr ≠ "" then
      { cluster with
          Dialer := some { ProxyURL := urlParse (normalizeProxy proxyStr) } }
    else cluster
  let cluster :=
    { cluster with DisableInitialHostLookup := true, NumConns := 1 }
  { Cluster := cluster, SystemAuthKeyspaceName := "system_auth" }

theorem newClusterConfig_dialer_none (env : String → String)
    (hosts : List String) (h1 : env ("HTTPS_PROXY") = "")
    (h2 : env ("HTTP_PROXY") = "") :
    (NewClusterConfig env hosts).Cluster.Dialer = none := by
  simp [NewClusterConfig, gocqlNewCluster, cmpOr, h1, h2]

theorem newClusterConfig_dialer_of_https (env : String → String)
    (hosts : List String) (h1 : env ("HTTPS_PROXY") ≠ "") :
    (NewClusterConfig env hosts).Cluster.Dialer =
      some { ProxyURL := urlParse (normalizeProxy (env ("HTTPS_PROXY"))) } := by
  simp [NewClusterConfig, gocqlNewCluster, cmpOr, h1]

theorem newClusterConfig_dialer_of_http (env : String → String)
    (hosts : List String) (h1 : env ("HTTPS_PROXY") = "")
    (h2 : env ("HTTP_PROXY") ≠ "") :
    (NewClusterConfig env hosts).Cluster.Dialer =
      some { ProxyURL := urlParse (normalizeProxy (env ("HTTP_PROXY"))) } := by
  simp [NewClusterConfig, gocqlNewCluster, cmpOr, h1, h2]

/-- Environment holding only the lowercase https_proxy variable. -/
def envLowerOnly : String → String :=
  fun n => if n = "https_proxy" then "tinyproxy.local:8888" else ""

/-- C4 counterexample: with only the lowercase https_proxy variable set (and
both uppercase variables empty), NewClusterConfig installs no proxy dialer,
although the claim requires the first non-empty of the four variables — here
https_proxy — to be used as the proxy address. -/
theorem NewClusterConfig_lowercase_not_consulted :
    envLowerOnly ("https_proxy") ≠ "" ∧
    (NewClusterConfig envLowerOnly ["10.0.0.5:9042"]).Cluster.Dialer =
      none := by
  exact ⟨by decide, by decide⟩

/-- C4 amended: the proxy address is the first non-empty of the two
environment variables HTTPS_PROXY and HTTP_PROXY, in that order; the
lowercase variables are not consulted; when both are empty, no proxy dialer
is installed. -/
theorem NewClusterConfig_env_priority (env : String → String)
    (hosts : List String) :
    (env ("HTTPS_PROXY") = "" → env ("HTTP_PROXY") = "" →
      (NewClusterConfig env hosts).Cluster.Dialer = none) ∧
    (env ("HTTPS_PROXY") ≠ "" →
      (NewClusterConfig env hosts).Cluster.Dialer =
        some { ProxyURL := urlParse (normalizeProxy (env ("HTTPS_PROXY"))) }) ∧
    (env ("HTTPS_PROXY") = "" → env ("HTTP_PROXY") ≠ "" →
      (NewClusterConfig env hosts).Cluster.Dialer =
        some { ProxyURL := urlParse (normalizeProxy (env ("HTTP_PROXY"))) }) :=
  ⟨newClusterConfig_dialer_none env hosts,
   newClusterConfig_dialer_of_https env hosts,
   newClusterConfig_dialer_of_http env hosts⟩

/-- Environment with both uppercase proxy variables set. -/
def envBoth : String → String :=
  fun n => if n = "HTTPS_PROXY" then "secure.proxy:8080"
    else if n = "HTTP_PROXY" then "plain.proxy:8080" else ""

/-- Environment with only HTTP_PROXY set. -/
def envHttpOnly : String → String :=
  fun n => if n = "HTTP_PROXY" then "plain.proxy:8080" else ""

/-- Environment with no proxy variable set. -/
def envEmpty : String → String := fun _ => ""

theorem NewClusterConfig_env_priority_witness :
    (NewClusterConfig envEmpty ["10.0.0.5:9042"]).Cluster.Dialer = none ∧
    (NewClusterConfig envBoth ["10.0.0.5:9042"]).Cluster.Dialer =
      some { ProxyURL := urlParse (normalizeProxy (envBoth ("HTTPS_PROXY"))) } ∧
    (NewClusterConfig envHttpOnly ["10.0.0.5:9042"]).Cluster.Dialer =
      some
        { ProxyURL := urlParse (normalizeProxy (envHttpOnly ("HTTP_PROXY"))) } :=
  ⟨(NewClusterConfig_env_priority envEmpty ["10.0.0.5:9042"]).1 rfl rfl,
   (NewClusterConfig_env_priority envBoth ["10.0.0.5:9042"]).2.1 (by decide),
   (NewClusterConfig_env_priority envHttpOnly ["10.0.0.5:9042"]).2.2
     (by decide) (by decide)⟩

theorem urlParse_scheme_http (s : String) (u : URL)
    (hp : strHasPrefix s ("http://") = true) (h : urlParse s = some u) :
    u.scheme = "http" := by
  unfold urlParse at h
  by_cases hc : hasCtl s
  · simp [hc] at h
  · by_cases hh : hostOk (s.drop 7)
    · simp [hc, hp, hh] at h
      subst h
      rfl
    · simp [hc, hp, hh] at h

/-- C5: a proxy address string with no scheme prefix has the scheme
defaulted to http before parsing, so the installed proxy URL carries scheme
http (e.g. tinyproxy.local:8888 becomes http://tinyproxy.local:8888). -/
theorem NewClusterConfig_schemeless_http (env : String → String)
    (hosts : List String) (u : URL)
    (h1 : env ("HTTPS_PROXY") ≠ "")
    (h2 : strHasPrefix (env ("HTTPS_PROXY")) ("http://") = false)
    (h3 : strHasPrefix (env ("HTTPS_PROXY")) ("https://") = false)
    (h4 : urlParse (("http://") ++ env ("HTTPS_PROXY")) = some u) :
    (NewClusterConfig env hosts).Cluster.Dialer =
      some { ProxyURL := some u } ∧ u.scheme = "http" := by
  have hn : normalizeProxy (env ("HTTPS_PROXY")) =
      ("http://") ++ env ("HTTPS_PROXY") := by
    simp [normalizeProxy, h2, h3]
  constructor
  · rw [newClusterConfig_dialer_of_https env hosts h1, hn, h4]
  · exact urlParse_scheme_http _ u (strHasPrefix_append _ _) h4

/-- Environment of spec scenario A: a scheme-less proxy address. -/
def envTinyproxy : String → String :=
  fun n => if n = "HTTPS_PROXY" then "tinyproxy.local:8888" else ""

theorem NewClusterConfig_schemeless_http_witness :
    (NewClusterConfig envTinyproxy ["10.0.0.5:9042"]).Cluster.Dialer =
      some
        { ProxyURL :=
            some { scheme := "http", host := "tinyproxy.local:8888" } } ∧
    URL.scheme { scheme := "http", host := "tinyproxy.local:8888" } =
      "http" :=
  NewClusterConfig_schemeless_http envTinyproxy ["10.0.0.5:9042"]
    { scheme := "http", host := "tinyproxy.local:8888" }
    (by decide) (by decide) (by decide) (by decide)

/-- Environment whose proxy address fails URL parsing: the host holds a
space, which net/url rejects. -/
def envBadProxy : String → String :=
  fun n => if n = "HTTPS_PROXY" then "bad host:8888" else ""

/-- C6 counterexample: for the unparseable proxy address "bad host:8888",
cluster configuration installs a dialer whose stored URL is nil (none) — not
the raw string — and a dial through that dialer dereferences the nil URL
(the none result, a Go panic) instead of targeting the raw address. -/
theorem NewClusterConfig_parse_failure_cx :
    urlParse (normalizeProxy ("bad host:8888")) = none ∧
    (NewClusterConfig envBadProxy ["10.0.0.5:9042"]).Cluster.Dialer =
      some { ProxyURL := none } ∧
    ProxyDialer.DialContext { ProxyURL := none } { deadline := none } 0
      { dialOk := true, dialErr := "", writeOk := true, writeErr := "",
        readResponse := some
          { StatusCode := 200, Status := "200 OK", pipelined := [] },
        readErr := "", stream := [] } = none :=
  ⟨by decide, by decide, rfl⟩

/-- C6 amended: for every proxy address string that fails URL parsing, the
parse error is discarded: cluster configuration still succeeds and installs
a proxy dialer, but the dialer stores a nil URL rather than the raw string,
and every dial through it dereferences the nil URL (a panic, modelled as
none) instead of targeting the raw string. -/
theorem NewClusterConfig_parse_failure (env : String → String)
    (hosts : List String) (h1 : env ("HTTPS_PROXY") ≠ "")
    (h2 : urlParse (normalizeProxy (env ("HTTPS_PROXY"))) = none) :
    (NewClusterConfig env hosts).Cluster.Dialer =
      some { ProxyURL := none } ∧
    ∀ ctx now beh,
      ProxyDialer.DialContext { ProxyURL := none } ctx now beh = none := by
  constructor
  · rw [newClusterConfig_dialer_of_https env hosts h1, h2]
  · intro ctx now beh
    rfl

theorem NewClusterConfig_parse_failure_witness :
    (NewClusterConfig envBadProxy ["10.0.0.5:9042"]).Cluster.Dialer =
      some { ProxyURL := none } ∧
    ProxyDialer.DialContext { ProxyURL := none } { deadline := some 5 } 0
      { dialOk := false, dialErr := "", writeOk := false, writeErr := "",
        readResponse := none, readErr := "", stream := [] } = none :=
  ⟨(NewClusterConfig_parse_failure envBadProxy ["10.0.0.5:9042"]
      (by decide) (by decide)).1,
   (NewClusterConfig_parse_failure envBadProxy ["10.0.0.5:9042"]
      (by decide) (by decide)).2 { deadline := some 5 } 0
      { dialOk := false, dialErr := "", writeOk := false, writeErr := "",
        readResponse := none, readErr := "", stream := [] }⟩

/-- Oracle record for the crypto/x509 and crypto/tls parsing functions that
Cluster.SetTLS calls: AppendCertsFromPEM reports whether any certificate
could be appended from the PEM input (Go returns false for empty or
unparseable input), and X509KeyPair parses the client key pair or fails. -/
structure X509Lib where
  AppendCertsFromPEM : List Nat → Bool
  X509KeyPair : List Nat → List Nat → Except String TLSCertificate

/-- Embeds Cluster.SetTLS of session.go over the parsing oracle: append
caCert to a fresh pool (error when nothing could be appended), build the
tls.Config with InsecureSkipVerify the negation of enableHostVerification,
when both client cert and key are non-empty parse them (error on failure)
and register the deterministic GetClientCertificate callback, and finally
install SslOpts with EnableHostVerification set explicitly. Error paths
return before SslOpts is assigned, so they leave the cluster unchanged. -/
def SetTLS (lib : X509Lib) (c : Cluster)
    (caCert clientCert clientKey : List Nat)
    (enableHostVerification : Bool) : Option String × Cluster :=
  if lib.AppendCertsFromPEM caCert = false then
    (some ("failed to append CA certificate"), c)
  else
    let tlsConfig : TLSConfig :=
      { RootCAsFromPEM := caCert,
        InsecureSkipVerify := !enableHostVerification,
        Certificates := [], GetClientCertificate := none }
    if 0 < clientCert.length ∧ 0 < clientKey.length then
      match lib.X509KeyPair clientCert clientKey with
      | Except.error e => (some e, c)
      | Except.ok cert =>
        let tlsConfig2 : TLSConfig :=
          { tlsConfig with Certificates := [cert],
                           GetClientCertificate := some cert }
        let opts : SslOptions :=
          { Config := tlsConfig2,
            EnableHostVerification := enableHostVerification }
        (none, { c with Cluster := { c.Cluster with SslOpts := some opts } })
    else
      let opts : SslOptions :=
        { Config := tlsConfig,
          EnableHostVerification := enableHostVerification }
      (none, { c with Cluster := { c.Cluster with SslOpts := some opts } })

/-- C3: whenever SetTLS succeeds, the installed TLS configuration has
InsecureSkipVerify equal to the negation of enableHostVerification and the
SslOptions field EnableHostVerification equal to enableHostVerification
itself, so the two can never diverge. -/
theorem SetTLS_host_verification (lib : X509Lib) (c : Cluster)
    (caCert clientCert clientKey : List Nat) (ehv : Bool)
    (h : (SetTLS lib c caCert clientCert clientKey ehv).1 = none) :
    ∃ opts,
      (SetTLS lib c caCert clientCert clientKey
          ehv).2.Cluster.SslOpts = some opts ∧
      opts.Config.InsecureSkipVerify = !ehv ∧
      opts.EnableHostVerification = ehv := by
  by_cases h1 : lib.AppendCertsFromPEM caCert = false
  · simp [SetTLS, h1] at h
  · by_cases h2 : 0 < clientCert.length ∧ 0 < clientKey.length
    · cases hk : lib.X509KeyPair clientCert clientKey with
      | error e => simp [SetTLS, h1, h2, hk] at h
      | ok cert =>
        refine ⟨{ Config := { RootCAsFromPEM := caCert,
                              InsecureSkipVerify := !ehv,
                              Certificates := [cert],
                              GetClientCertificate := some cert },
                  EnableHostVerification := ehv }, ?_, rfl, rfl⟩
        simp [SetTLS, h1, h2, hk]
    · refine ⟨{ Config := { RootCAsFromPEM := caCert,
                            InsecureSkipVerify := !ehv,
                            Certificates := [],
                            GetClientCertificate := none },
                EnableHostVerification := ehv }, ?_, rfl, rfl⟩
      simp [SetTLS, h1, h2]

/-- Oracle whose parsers always succeed. -/
def libOkAll : X509Lib :=
  { AppendCertsFromPEM := fun _ => true,
    X509KeyPair := fun cc ck =>
      Except.ok { certData := cc, keyData := ck } }

/-- A cluster configuration with no TLS options installed. -/
def clusterBase : Cluster := NewClusterConfig envEmpty ["10.0.0.5:9042"]

theorem SetTLS_host_verification_witness :
    ∃ opts,
      (SetTLS libOkAll clusterBase [1] [2] [3]
          true).2.Cluster.SslOpts = some opts ∧
      opts.Config.InsecureSkipVerify = !true ∧
      opts.EnableHostVerification = true :=
  SetTLS_host_verification libOkAll clusterBase [1] [2] [3] true (by decide)

/-- C9: for every caCert input on which the PEM pool append fails — as it
does for empty or otherwise unparseable trust-root input — SetTLS returns
the fatal configuration error and the unchanged cluster: no TLS options are
installed on the error path. -/
theorem SetTLS_bad_ca (lib : X509Lib) (c : Cluster)
    (caCert clientCert clientKey : List Nat) (ehv : Bool)
    (h : lib.AppendCertsFromPEM caCert = false) :
    SetTLS lib c caCert clientCert clientKey ehv =
      (some ("failed to append CA certificate"), c) ∧
    (SetTLS lib c caCert clientCert clientKey
        ehv).2.Cluster.SslOpts = c.Cluster.SslOpts := by
  have he : SetTLS lib c caCert clientCert clientKey ehv =
      (some ("failed to append CA certificate"), c) := by
    simp [SetTLS, h]
  exact ⟨he, by rw [he]⟩

/-- Oracle rejecting every PEM input, as AppendCertsFromPEM does for the
empty byte slice. -/
def libRejectCA : X509Lib :=
  { AppendCertsFromPEM := fun _ => false,
    X509KeyPair := fun cc ck =>
      Except.ok { certData := cc, keyData := ck } }

theorem SetTLS_bad_ca_witness :
    SetTLS libRejectCA clusterBase [] [] [] true =
      (some ("failed to append CA certificate"), clusterBase) ∧
    (SetTLS libRejectCA clusterBase [] [] []
        true).2.Cluster.SslOpts = clusterBase.Cluster.SslOpts :=
  SetTLS_bad_ca libRejectCA clusterBase [] [] [] true (by decide)

/-- Embeds type Grant of the grant query layer. -/
structure Grant where
  Privilege : String
  ResourceType : String
  RoleName : String
  Keyspace : String
  Identifier : String
  deriving DecidableEq, Repr

/-- Rendering of the keyspace/identifier fragment shared by the grant
templates: quoted keyspace when present, a dot when keyspace and identifier
are both present, quoted identifier when present (Go template truthiness:
the empty string is false). -/
def grantBody (g : Grant) : String :=
  (if g.Keyspace ≠ "" then ("\"") ++ g.Keyspace ++ ("\"") else "") ++
  (if g.Keyspace ≠ "" ∧ g.Identifier ≠ "" then "." else "") ++
  (if g.Identifier ≠ "" then ("\"") ++ g.Identifier ++ ("\"") else "")

/-- The query rendered by deleteGrantTemplate. -/
def deleteGrantQuery (g : Grant) : String :=
  ("REVOKE ") ++ g.Privilege ++ (" ON ") ++ g.ResourceType ++ (" ") ++
    grantBody g ++ (" FROM ") ++ ("\"") ++ g.RoleName ++ ("\"")

/-- The query rendered by createGrantTemplate. -/
def createGrantQuery (g : Grant) : String :=
  ("GRANT ") ++ g.Privilege ++ (" ON ") ++ g.ResourceType ++ (" ") ++
    grantBody g ++ (" TO ") ++ ("\"") ++ g.RoleName ++ ("\"")

/-- Oracle for Session.Query(q).Exec(): the error executing query q would
return, if any. -/
structure Session where
  exec : String → Option String

/-- Embeds Cluster.CreateGrant: render the GRANT template and execute it.
The result pairs the execution error with the queries executed, in order. -/
def CreateGrant (s : Session) (g : Grant) : Option String × List String :=
  (s.exec (createGrantQuery g), [createGrantQuery g])

/-- Embeds Cluster.DeleteGrant: render the REVOKE template and execute it. -/
def DeleteGrant (s : Session) (g : Grant) : Option String × List String :=
  (s.exec (deleteGrantQuery g), [deleteGrantQuery g])

/-- Embeds Cluster.UpdateGrant: CQL has no grant update, so delete the old
grant first and return its error at once when it fails; only otherwise
create the new grant and return its result. -/
def UpdateGrant (s : Session) (fromGrant toGrant : Grant) :
    Option String × List String :=
  match DeleteGrant s fromGrant with
  | (some e, t) => (some e, t)
  | (none, t) =>
    let r := CreateGrant s toGrant
    (r.1, t ++ r.2)

/-- C10: UpdateGrant executes DeleteGrant(fromGrant) first; when that delete
errors, its error is returned and CreateGrant(toGrant) is never executed
(the executed-query trace holds the delete query alone); only when the
delete succeeds does CreateGrant(toGrant) run, whose result is returned. -/
theorem UpdateGrant_delete_first (s : Session) (fromGrant toGrant : Grant) :
    (∀ e, (DeleteGrant s fromGrant).1 = some e →
      UpdateGrant s fromGrant toGrant =
        (some e, [deleteGrantQuery fromGrant])) ∧
    ((DeleteGrant s fromGrant).1 = none →
      UpdateGrant s fromGrant toGrant =
        ((CreateGrant s toGrant).1,
          [deleteGrantQuery fromGrant, createGrantQuery toGrant])) := by
  constructor
  · intro e he
    have hx : s.exec (deleteGrantQuery fromGrant) = some e := by
      simpa [DeleteGrant] using he
    simp [UpdateGrant, DeleteGrant, hx]
  · intro he
    have hx : s.exec (deleteGrantQuery fromGrant) = none := by
      simpa [DeleteGrant] using he
    simp [UpdateGrant, DeleteGrant, CreateGrant, hx]

/-- The grant moved from in the update of the witness. -/
def demoGrantFrom : Grant :=
  { Privilege := "ALTER", ResourceType := "KEYSPACE", RoleName := "admin",
    Keyspace := "cycling", Identifier := "" }

/-- The grant moved to in the update of the witness. -/
def demoGrantTo : Grant :=
  { Privilege := "SELECT", ResourceType := "KEYSPACE", RoleName := "admin",
    Keyspace := "cycling", Identifier := "" }

/-- A session on which the delete of demoGrantFrom fails. -/
def sessionFailDelete : Session :=
  { exec := fun q => if q = deleteGrantQuery demoGrantFrom
      then some ("delete failed") else none }

/-- A session on which every query succeeds. -/
def sessionOk : Session := { exec := fun _ => none }

theorem UpdateGrant_delete_first_witness :
    UpdateGrant sessionFailDelete demoGrantFrom demoGrantTo =
      (some ("delete failed"), [deleteGrantQuery demoGrantFrom]) ∧
    UpdateGrant sessionOk demoGrantFrom demoGrantTo =
      ((CreateGrant sessionOk demoGrantTo).1,
        [deleteGrantQuery demoGrantFrom, createGrantQuery demoGrantTo]) :=
  ⟨(UpdateGrant_delete_first sessionFailDelete demoGrantFrom demoGrantTo).1
      ("delete failed") (by decide),
   (UpdateGrant_delete_first sessionOk demoGrantFrom demoGrantTo).2 rfl⟩

/-- Modelled from the spec: the SOCKS5HostDialer component (spec section
4.3) is not among the provided source files, so its candidate iteration is
modelled from the spec text. dialFirst walks the candidate host list in
fixed order, attempting one SOCKS5 dial per candidate through the given
dial function, and stops at the first success, pairing the connection with
the address that succeeded. The second component records the addresses
attempted, in order. -/
def dialFirst (dial : String → Option NetConn) :
    List String → Option (NetConn × String) × List String
  | [] => (none, [])
  | c :: rest =>
    match dial c with
    | some conn => (some (conn, c), [c])
    | none =>
      let r := dialFirst dial rest
      (r.1, c :: r.2)

/-- Modelled from the spec: dialHost wraps the candidate iteration of
SOCKS5HostDialer, turning total failure into a single aggregate error
naming the full candidate set (the error carries that list). -/
def dialHost (dial : String → Option NetConn) (candidates : List String) :
    Except (List String) (NetConn × String) × List String :=
  match dialFirst dial candidates with
  | (some r, t) => (Except.ok r, t)
  | (none, t) => (Except.error candidates, t)

theorem dialFirst_success (dial : String → Option NetConn) :
    ∀ (candidates : List String) (i : Nat) (a : String) (conn : NetConn),
      candidates[i]? = some a → dial a = some conn →
      (∀ j b, j < i → candidates[j]? = some b → dial b = none) →
      dialFirst dial candidates = (some (conn, a), candidates.take (i + 1))
  | [], i, a, conn, hg, _, _ => by simp at hg
  | c :: rest, 0, a, conn, hg, hd, _ => by
    simp at hg
    subst hg
    simp [dialFirst, hd]
  | c :: rest, Nat.succ k, a, conn, hg, hd, hf => by
    have hc : dial c = none := hf 0 c (Nat.succ_pos k) (by simp)
    simp at hg
    have ih := dialFirst_success dial rest k a conn hg hd
      (fun j b hj hb => hf (j + 1) b (Nat.succ_lt_succ hj) (by simpa using hb))
    simp [dialFirst, hc, ih]

theorem dialFirst_all_fail (dial : String → Option NetConn) :
    ∀ (candidates : List String),
      (∀ a, a ∈ candidates → dial a = none) →
      dialFirst dial candidates = (none, candidates)
  | [], _ => rfl
  | c :: rest, h => by
    have hc : dial c = none := h c (List.mem_cons_self c rest)
    have ih := dialFirst_all_fail dial rest
      (fun a ha => h a (List.mem_cons_of_mem c ha))
    simp [dialFirst, hc, ih]

/-- C7: dialHost attempts candidates strictly in list order: when candidate
i succeeds and every earlier candidate fails, it returns that connection
paired with the succeeding address, having attempted exactly the first i+1
candidates and none after; when every candidate fails it returns no
connection and one aggregate error naming the full candidate set, each
candidate attempted exactly once. -/
theorem dialHost_order (dial : String → Option NetConn)
    (candidates : List String) :
    (∀ i a conn, candidates[i]? = some a → dial a = some conn →
      (∀ j b, j < i → candidates[j]? = some b → dial b = none) →
      dialHost dial candidates =
        (Except.ok (conn, a), candidates.take (i + 1))) ∧
    ((∀ a, a ∈ candidates → dial a = none) →
      dialHost dial candidates = (Except.error candidates, candidates)) := by
  constructor
  · intro i a conn hg hd hf
    have h1 := dialFirst_success dial candidates i a conn hg hd hf
    simp [dialHost, h1]
  · intro h
    have h1 := dialFirst_all_fail dial candidates h
    simp [dialHost, h1]

/-- The SOCKS5 dial of spec scenario B: the first seed host refuses, the
second accepts. -/
def socksDialB : String → Option NetConn :=
  fun a => if a = "10.0.0.6:9042" then some (NetConn.raw []) else none

theorem dialHost_order_witness :
    dialHost socksDialB ["10.0.0.5:9042", "10.0.0.6:9042"] =
      (Except.ok (NetConn.raw [], "10.0.0.6:9042"),
        (["10.0.0.5:9042", "10.0.0.6:9042"] : List String).take (1 + 1)) ∧
    dialHost (fun _ => none) ["10.0.0.5:9042", "10.0.0.6:9042"] =
      (Except.error ["10.0.0.5:9042", "10.0.0.6:9042"],
        ["10.0.0.5:9042", "10.0.0.6:9042"]) := by
  constructor
  · refine (dialHost_order socksDialB ["10.0.0.5:9042", "10.0.0.6:9042"]).1
      1 ("10.0.0.6:9042") (NetConn.raw []) (by decide) (by decide) ?_
    intro j b hj hb
    cases j with
    | zero =>
      simp at hb
      subst hb
      decide
    | succ k => exact absurd hj (by omega)
  · exact (dialHost_order (fun _ => none)
      ["10.0.0.5:9042", "10.0.0.6:9042"]).2 (fun a _ => rfl)
